import Mathlib

/-! Shallow embedding of the insurance platform (src/app3.py).

The file translates the data model (User, Scheme, Policy, Nominee, Claim,
Report), the helper functions and the request handlers that the verified
claims concern into executable Lean definitions, and proves the claims
about them.  Database state is a record of lists, one per table; the
wall clock is passed explicitly (seconds since the epoch as an `Int` for
the withdrawal window, a broken-down timestamp for `strftime`-style
formatting); randomness (`uuid.uuid4()`) is passed explicitly as the
string it would produce. -/

namespace Insurance

/-! ## SHA-256 (the digest `hashlib.sha256(...).hexdigest()` computes)

`hash_password` and `verify_password` (src/app3.py lines 158-163) call
`hashlib.sha256` on the UTF-8 encoding of the password and compare hex
digests.  The algorithm is FIPS 180-4 SHA-256, embedded here over byte
lists, with 32-bit words as `Nat` reduced mod 2^32. -/

/-- Truncation to a 32-bit word. -/
def w32 (n : Nat) : Nat := n % 4294967296

/-- Right rotation of a 32-bit word by `k` bits. -/
def rotr (k n : Nat) : Nat := w32 ((n >>> k) ||| (n <<< (32 - k)))

/-- Message-schedule sigma-0. -/
def ssig0 (x : Nat) : Nat := rotr 7 x ^^^ rotr 18 x ^^^ (x >>> 3)

/-- Message-schedule sigma-1. -/
def ssig1 (x : Nat) : Nat := rotr 17 x ^^^ rotr 19 x ^^^ (x >>> 10)

/-- Compression Sigma-0. -/
def bsig0 (x : Nat) : Nat := rotr 2 x ^^^ rotr 13 x ^^^ rotr 22 x

/-- Compression Sigma-1. -/
def bsig1 (x : Nat) : Nat := rotr 6 x ^^^ rotr 11 x ^^^ rotr 25 x

/-- Choice function of the compression loop. -/
def ch (e f g : Nat) : Nat := (e &&& f) ^^^ ((e ^^^ 4294967295) &&& g)

/-- Majority function of the compression loop. -/
def maj (a b c : Nat) : Nat := (a &&& b) ^^^ (a &&& c) ^^^ (b &&& c)

/-- The eight 32-bit state words of SHA-256. -/
structure H8 where
  a : Nat
  b : Nat
  c : Nat
  d : Nat
  e : Nat
  f : Nat
  g : Nat
  h : Nat
deriving Repr, DecidableEq

/-- Initial hash state (square-root constants of FIPS 180-4). -/
def initH : H8 :=
  ⟨1779033703, 3144134277, 1013904242, 2773480762,
   1359893119, 2600822924, 528734635, 1541459225⟩

/-- The 64 round constants of SHA-256 (cube-root constants of FIPS 180-4). -/
def K : Array Nat := #[
  1116352408, 1899447441, 3049323471, 3921009573,
  961987163, 1508970993, 2453635748, 2870763221,
  3624381080, 310598401, 607225278, 1426881987,
  1925078388, 2162078206, 2614888103, 3248222580,
  3835390401, 4022224774, 264347078, 604807628,
  770255983, 1249150122, 1555081692, 1996064986,
  2554220882, 2821834349, 2952996808, 3210313671,
  3336571891, 3584528711, 113926993, 338241895,
  666307205, 773529912, 1294757372, 1396182291,
  1695183700, 1986661051, 2177026350, 2456956037,
  2730485921, 2820302411, 3259730800, 3345764771,
  3516065817, 3600352804, 4094571909, 275423344,
  430227734, 506948616, 659060556, 883997877,
  958139571, 1322822218, 1537002063, 1747873779,
  1955562222, 2024104815, 2227730452, 2361852424,
  2428436474, 2756734187, 3204031479, 3329325298]

/-- Big-endian 32-bit words from a byte list (length a multiple of 4). -/
def words4 : List Nat → List Nat
  | b0 :: b1 :: b2 :: b3 :: rest =>
      ((b0 <<< 24) ||| (b1 <<< 16) ||| (b2 <<< 8) ||| b3) :: words4 rest
  | _ => []

/-- The 64-word message schedule of one 512-bit block. -/
def msgSchedule (block : List Nat) : Array Nat :=
  (List.range 48).foldl
    (fun w i =>
      let g := fun j => w.getD (i + 16 - j) 0
      w.push (w32 (g 16 + ssig0 (g 15) + g 7 + ssig1 (g 2))))
    (words4 block).toArray

/-- One round of the compression function. -/
def compressRound (k wi : Nat) (s : H8) : H8 :=
  let t1 := w32 (s.h + bsig1 s.e + ch s.e s.f s.g + k + wi)
  let t2 := w32 (bsig0 s.a + maj s.a s.b s.c)
  ⟨w32 (t1 + t2), s.a, s.b, s.c, w32 (s.d + t1), s.e, s.f, s.g⟩

/-- Process one 64-byte block: 64 rounds, then add the incoming state. -/
def processBlock (st : H8) (block : List Nat) : H8 :=
  let w := msgSchedule block
  let s := (List.range 64).foldl
    (fun s i => compressRound (K.getD i 0) (w.getD i 0) s) st
  ⟨w32 (st.a + s.a), w32 (st.b + s.b), w32 (st.c + s.c), w32 (st.d + s.d),
   w32 (st.e + s.e), w32 (st.f + s.f), w32 (st.g + s.g), w32 (st.h + s.h)⟩

/-- Big-endian byte expansion of `n` over `k` bytes. -/
def beBytes : Nat → Nat → List Nat
  | 0, _ => []
  | k + 1, n => ((n >>> (8 * k)) % 256) :: beBytes k n

/-- FIPS 180-4 padding: 0x80, zeros to 56 mod 64, the bit length on 8 bytes. -/
def padMsg (msg : List Nat) : List Nat :=
  msg ++ 0x80 :: List.replicate ((64 + 55 - msg.length % 64) % 64) 0
      ++ beBytes 8 (8 * msg.length)

/-- Split a nonempty byte list into 64-byte blocks; the fuel only bounds the
recursion and never runs out when it starts at the list's length, since every
step removes at least one element. -/
def chunksGo : Nat → List Nat → List (List Nat)
  | _, [] => []
  | 0, _ :: _ => []
  | fuel + 1, x :: xs => (x :: xs).take 64 :: chunksGo fuel ((x :: xs).drop 64)

/-- Split a byte list into 64-byte blocks. -/
def chunks64 (l : List Nat) : List (List Nat) :=
  chunksGo l.length l

/-- The SHA-256 state after hashing a byte list. -/
def sha256Words (msg : List Nat) : H8 :=
  (chunks64 (padMsg msg)).foldl processBlock initH

/-- Lowercase hex digit of a value below 16. -/
def hexDigit (n : Nat) : Char :=
  if n < 10 then Char.ofNat (48 + n) else Char.ofNat (87 + n)

/-- Eight lowercase hex digits of a 32-bit word, most significant first. -/
def hexW32 (n : Nat) : String :=
  String.mk ((List.range 8).map fun i => hexDigit ((n >>> (4 * (7 - i))) % 16))

/-- The 64-character lowercase hex digest, as `hexdigest()` returns it. -/
def sha256Hex (msg : List Nat) : String :=
  let s := sha256Words msg
  hexW32 s.a ++ hexW32 s.b ++ hexW32 s.c ++ hexW32 s.d
    ++ hexW32 s.e ++ hexW32 s.f ++ hexW32 s.g ++ hexW32 s.h

/-- UTF-8 encoding of one code point. -/
def utf8Char (c : Nat) : List Nat :=
  if c < 0x80 then [c]
  else if c < 0x800 then
    [0xc0 ||| (c >>> 6), 0x80 ||| (c &&& 0x3f)]
  else if c < 0x10000 then
    [0xe0 ||| (c >>> 12), 0x80 ||| ((c >>> 6) &&& 0x3f), 0x80 ||| (c &&& 0x3f)]
  else
    [0xf0 ||| (c >>> 18), 0x80 ||| ((c >>> 12) &&& 0x3f),
     0x80 ||| ((c >>> 6) &&& 0x3f), 0x80 ||| (c &&& 0x3f)]

/-- UTF-8 encoding of a string, as `password.encode('utf-8')` produces. -/
def utf8Bytes (s : String) : List Nat :=
  s.data.foldr (fun c acc => utf8Char c.toNat ++ acc) []

/-- hash_password (src/app3.py line 158): hex SHA-256 of the UTF-8 password. -/
def hash_password (password : String) : String :=
  sha256Hex (utf8Bytes password)

/-- verify_password (src/app3.py line 162): recompute the digest and compare. -/
def verify_password (password password_hash : String) : Bool :=
  sha256Hex (utf8Bytes password) == password_hash

/-! ## Helper functions (src/app3.py lines 146-173) -/

/-- A calendar date, for dates of birth and `calculate_age`. -/
structure Date where
  year : Nat
  month : Nat
  day : Nat
deriving Repr, DecidableEq

/-- A broken-down timestamp, for `strftime`-style formatting. -/
structure Dt where
  year : Nat
  month : Nat
  day : Nat
  hour : Nat
  minute : Nat
deriving Repr, DecidableEq

/-- Python `str.upper` over the characters (ASCII case mapping, which covers
the token, PAN and uuid alphabets involved). -/
def pyUpper (s : String) : String :=
  String.mk (s.data.map Char.toUpper)

/-- Python `str.lower` over the characters (ASCII case mapping). -/
def pyLower (s : String) : String :=
  String.mk (s.data.map Char.toLower)

/-- Whitespace as Python `str.strip` removes it. -/
def isSpaceCh (c : Char) : Bool :=
  c == ' ' || c == '\t' || c == '\n' || c == '\r' || c == '\x0b' || c == '\x0c'

/-- Python `str.strip`: drop whitespace from both ends. -/
def pyStrip (s : String) : String :=
  String.mk (((s.data.dropWhile isSpaceCh).reverse.dropWhile isSpaceCh).reverse)

/-- generate_token (line 146): the first 8 characters of `str(uuid.uuid4())`,
upper-cased.  The uuid string the random source would produce is passed in;
the function never consults existing users. -/
def generate_token (uuidStr : String) : String :=
  pyUpper (String.mk (uuidStr.data.take 8))

/-- calculate_age (line 166): year difference, minus one when today's
(month, day) pair compares lexicographically below the birth date's. -/
def calculate_age (today dob : Date) : Int :=
  (today.year : Int) - (dob.year : Int) -
    (if today.month < dob.month || (today.month == dob.month && today.day < dob.day)
     then 1 else 0)

/-- Uppercase letter test for the PAN pattern. -/
def isUpperAlpha (c : Char) : Bool := 65 ≤ c.toNat && c.toNat ≤ 90

/-- Decimal digit test for the PAN pattern. -/
def isDigitCh (c : Char) : Bool := 48 ≤ c.toNat && c.toNat ≤ 57

/-- Five letters, four digits, one letter. -/
def panShape (l : List Char) : Bool :=
  l.length == 10 && (l.take 5).all isUpperAlpha
    && ((l.drop 5).take 4).all isDigitCh && (l.drop 9).all isUpperAlpha

/-- validate_pan (line 171): `re.match` of the anchored pattern against the
upper-cased string; Python's `$` also matches just before one trailing
newline. -/
def validate_pan (pan : String) : Bool :=
  let l := (pyUpper pan).data
  panShape l ||
    (match l.getLast? with
     | some c => c == '\n' && panShape l.dropLast
     | none => false)

/-! ## Data model (src/app3.py lines 59-140)

One structure per table.  Columns never touched by the verified operations
(`fingerprint_data`, `profile_picture`, `created_at` on User, the nominee
row id) are omitted.  `datetime` columns compared in seconds are `Int`
epoch seconds; `date` columns used with `timedelta` arithmetic are `Int`
day numbers; the date of birth, only fed to `calculate_age`, is a
broken-down `Date`. -/

structure User where
  id : Nat
  digital_token : String
  username : String
  password_hash : String
  full_name : String
  email : String
  phone : String
  date_of_birth : Date
  age : Int
  gender : String
  address : String
  pan_number : String
  face_data : Option String
  retina_data : Option String
  account_status : String
  last_login : Option Int
deriving Repr, DecidableEq

structure Scheme where
  id : Nat
  name : String
  category : String
  description : String
  premium_amount : Rat
  coverage_amount : Rat
  min_age : Int
  max_age : Int
  features : String
  is_active : Bool
deriving Repr, DecidableEq

structure Policy where
  id : Nat
  policy_number : String
  user_id : Nat
  scheme_id : Nat
  start_date : Int
  end_date : Int
  premium_amount : Rat
  coverage_amount : Rat
  status : String
  created_at : Int
deriving Repr, DecidableEq

structure Nominee where
  user_id : Nat
  policy_id : Nat
  name : String
  relationship : String
deriving Repr, DecidableEq

structure Claim where
  claim_number : String
  user_id : Nat
  policy_id : Nat
  claim_amount : Rat
  document_paths : List String
  status : String
  submitted_at : Int
deriving Repr, DecidableEq

structure Report where
  user_id : Nat
  report_type : String
  description : String
  status : String
  created_at : Dt
deriving Repr, DecidableEq

/-- The relational store: one list per table. -/
structure DB where
  users : List User
  schemes : List Scheme
  policies : List Policy
  nominees : List Nominee
  claims : List Claim
  reports : List Report
deriving Repr, DecidableEq

/-- Policy.is_withdrawable (src/app3.py lines 109-111): status is exactly
the string applied, and strictly fewer than 86400 seconds have elapsed
between `created_at` and the wall clock `now` at the moment of the query. -/
def is_withdrawable (now : Int) (p : Policy) : Bool :=
  p.status == "applied" && decide (now - p.created_at < 86400)

/-! ## Request handlers

Each handler is a function from the submitted data and the store to a
result and the updated store.  The session user is resolved by the
presentation layer and passed in; generated identifiers (uuid strings,
policy and claim numbers) and the clock are explicit arguments. -/

/-- The JSON body the login route answers with: the success flag, the
message (or redirect target) and the HTTP status code. -/
structure LoginResp where
  success : Bool
  message : String
  code : Nat
deriving Repr, DecidableEq

/-- login POST handler (src/app3.py lines 552-589): strip the username,
reject blank fields with a 400, look the user up by username and check the
password hash; on success record the login time, otherwise answer 401 with
one fixed message for both an unknown username and a wrong password. -/
def login (users : List User) (username password : String) (now : Int) :
    LoginResp × List User :=
  let uname := pyStrip username
  if uname == "" || password == "" then
    (⟨false, "Username and password are required", 400⟩, users)
  else
    match users.find? (fun u => u.username == uname) with
    | some u =>
        if verify_password password u.password_hash then
          (⟨true, "/dashboard", 200⟩,
           users.map fun v => if v.id == u.id then { v with last_login := some now } else v)
        else (⟨false, "Invalid username or password", 401⟩, users)
    | none => (⟨false, "Invalid username or password", 401⟩, users)

/-- The nine form fields the register route requires.  The date of birth
travels both as the submitted string (for the required-field check) and as
the result of `datetime.strptime`, passed separately as an `Option Date`
(`none` models the `ValueError` branch). -/
structure RegForm where
  username : String
  password : String
  full_name : String
  email : String
  phone : String
  date_of_birth : String
  gender : String
  address : String
  pan_number : String
deriving Repr, DecidableEq

/-- Outcome of the register route: an error message with its HTTP status,
or the new user's digital token. -/
inductive RegResult where
  | failure (message : String) (code : Nat)
  | success (digital_token : String)
deriving Repr, DecidableEq

/-- register POST handler (src/app3.py lines 1191-1276): required fields,
duplicate username/email/PAN pre-checks (against the raw submitted values,
as the source queries them), PAN format, parsed date of birth, age bounds;
then the User row is built (token from `generate_token`, stripped and
normalised fields, biometric columns set to verified) and committed.  The
commit enforces the `unique=True` columns declared on lines 61-71: a
duplicate digital_token, username, email or pan_number raises, and the
`except` branch rolls the transaction back and answers 500. -/
def register (db : DB) (form : RegForm) (dob : Option Date) (today : Date)
    (uuidStr : String) : RegResult × DB :=
  if form.username == "" then (.failure "Missing required field: username" 400, db)
  else if form.password == "" then (.failure "Missing required field: password" 400, db)
  else if form.full_name == "" then (.failure "Missing required field: full_name" 400, db)
  else if form.email == "" then (.failure "Missing required field: email" 400, db)
  else if form.phone == "" then (.failure "Missing required field: phone" 400, db)
  else if form.date_of_birth == "" then (.failure "Missing required field: date_of_birth" 400, db)
  else if form.gender == "" then (.failure "Missing required field: gender" 400, db)
  else if form.address == "" then (.failure "Missing required field: address" 400, db)
  else if form.pan_number == "" then (.failure "Missing required field: pan_number" 400, db)
  else if db.users.any (fun u => u.username == form.username) then
    (.failure "Username already exists. Please choose a different username." 400, db)
  else if db.users.any (fun u => u.email == form.email) then
    (.failure "Email already registered. Please use a different email." 400, db)
  else if db.users.any (fun u => u.pan_number == pyUpper form.pan_number) then
    (.failure "PAN number already registered. Please check your PAN number." 400, db)
  else if !validate_pan form.pan_number then
    (.failure "Invalid PAN number format. Please enter a valid PAN number." 400, db)
  else
    match dob with
    | none =>
        (.failure "Invalid date format. Please enter a valid date of birth." 400, db)
    | some birth_date =>
        let calculated_age := calculate_age today birth_date
        if calculated_age < 18 then
          (.failure "You must be at least 18 years old to register." 400, db)
        else if calculated_age > 100 then
          (.failure "Please enter a valid date of birth." 400, db)
        else
          let newUser : User :=
            { id := db.users.length + 1
              digital_token := generate_token uuidStr
              username := pyStrip form.username
              password_hash := hash_password form.password
              full_name := pyStrip form.full_name
              email := pyLower (pyStrip form.email)
              phone := pyStrip form.phone
              date_of_birth := birth_date
              age := calculated_age
              gender := pyLower form.gender
              address := pyStrip form.address
              pan_number := pyStrip (pyUpper form.pan_number)
              face_data := some "verified"
              retina_data := some "verified"
              account_status := "active"
              last_login := none }
          if db.users.any (fun u =>
              u.digital_token == newUser.digital_token
                || u.username == newUser.username
                || u.email == newUser.email
                || u.pan_number == newUser.pan_number) then
            (.failure "Registration failed: UNIQUE constraint failed" 500, db)
          else
            (.success newUser.digital_token, { db with users := db.users ++ [newUser] })

/-- Outcome of the apply-policy POST: the token-mismatch error page, or the
success page with the created rows. -/
inductive ApplyResult where
  | tokenMismatch
  | applied (policy : Policy) (nominee : Nominee)
deriving Repr, DecidableEq

/-- apply_policy POST handler (src/app3.py lines 1707-1750): upper-case the
submitted token and compare it with the user's stored token; on mismatch
render the error page and change nothing.  Otherwise build the Policy
(amounts copied from the scheme, start today, end today plus 365*10 days,
status defaulting to applied, created_at the current instant) and its
Nominee, and commit both in the one transaction. -/
def apply_policy (db : DB) (user : User) (scheme : Scheme)
    (digital_token nominee_name nominee_relationship : String)
    (today now : Int) (policyNumber : String) (newPolicyId : Nat) :
    ApplyResult × DB :=
  let token_entered := pyUpper digital_token
  if user.digital_token != token_entered then (.tokenMismatch, db)
  else
    let new_policy : Policy :=
      { id := newPolicyId
        policy_number := policyNumber
        user_id := user.id
        scheme_id := scheme.id
        start_date := today
        end_date := today + 365 * 10
        premium_amount := scheme.premium_amount
        coverage_amount := scheme.coverage_amount
        status := "applied"
        created_at := now }
    let nominee : Nominee :=
      { user_id := user.id
        policy_id := new_policy.id
        name := nominee_name
        relationship := nominee_relationship }
    (.applied new_policy nominee,
     { db with policies := db.policies ++ [new_policy],
               nominees := db.nominees ++ [nominee] })

/-- Primary-key lookup `Policy.query.get(policy_id)`. -/
def getPolicy (db : DB) (pid : Nat) : Option Policy :=
  db.policies.find? (fun p => p.id == pid)

/-- Outcome of the withdraw POST: the 404 page when the policy id does not
exist, otherwise the redirect to /my-policies (whether or not anything
changed). -/
inductive WithdrawResult where
  | notFound
  | redirect
deriving Repr, DecidableEq

/-- withdraw_policy handler (src/app3.py lines 1995-2005): look the policy
up by id (404 when absent); when it belongs to the session user and
`is_withdrawable` holds at the instant of the call, set its status to
withdrawn and commit; in every other case touch nothing.  Both branches
end in the same redirect — no error is surfaced. -/
def withdraw_policy (db : DB) (session_user_id pid : Nat) (now : Int) :
    WithdrawResult × DB :=
  match getPolicy db pid with
  | none => (.notFound, db)
  | some policy =>
      if policy.user_id == session_user_id && is_withdrawable now policy then
        (.redirect,
         { db with policies := db.policies.map fun q =>
             if q.id == pid then { q with status := "withdrawn" } else q })
      else (.redirect, db)

/-- Outcome of the make-claim POST: the token-mismatch error page, or the
success page with the created claim. -/
inductive ClaimResult where
  | tokenMismatch
  | submitted (claim : Claim)
deriving Repr, DecidableEq

/-- make_claim POST handler (src/app3.py lines 2008-2059): upper-case the
submitted token and compare it with the user's stored token; on mismatch
render the error page and change nothing.  Otherwise store the uploaded
documents (the stored paths are passed in, the file-storage boundary) and
insert a Claim for the submitted `policy_id` with status defaulting to
submitted.  The handler performs no check on the referenced policy: its
status and owner are never read. -/
def make_claim (db : DB) (user : User) (digital_token : String)
    (policy_id : Nat) (claim_amount : Rat) (doc_paths : List String)
    (now : Int) (claimNumber : String) : ClaimResult × DB :=
  let token_entered := pyUpper digital_token
  if user.digital_token != token_entered then (.tokenMismatch, db)
  else
    let claim : Claim :=
      { claim_number := claimNumber
        user_id := user.id
        policy_id := policy_id
        claim_amount := claim_amount
        document_paths := doc_paths
        status := "submitted"
        submitted_at := now }
    (.submitted claim, { db with claims := db.claims ++ [claim] })

/-- Zero-padded decimal rendering over `w` positions,
as `strftime` pads its numeric fields. -/
def padZeros (w n : Nat) : String :=
  let s := toString n
  String.mk (List.replicate (w - s.length) '0') ++ s

/-- The `%Y%m%d%H%M` format the reference ids embed. -/
def fmtYmdHM (t : Dt) : String :=
  padZeros 4 t.year ++ padZeros 2 t.month ++ padZeros 2 t.day
    ++ padZeros 2 t.hour ++ padZeros 2 t.minute

/-- report_transaction POST handler (src/app3.py lines 2412-2443): append a
Report of type unauthorized_transaction and answer with the reference id
REP followed by the current time as `%Y%m%d%H%M`. -/
def report_transaction (db : DB) (session_user_id : Nat)
    (description : String) (now : Dt) : String × DB :=
  ("REP" ++ fmtYmdHM now,
   { db with reports := db.reports ++
       [⟨session_user_id, "unauthorized_transaction", description, "submitted", now⟩] })

/-- complaints_feedback POST handler (src/app3.py lines 2489-2520): append a
Report of type complaint_feedback and answer with the reference id FB
followed by the current time as `%Y%m%d%H%M`. -/
def complaints_feedback (db : DB) (session_user_id : Nat)
    (description : String) (now : Dt) : String × DB :=
  ("FB" ++ fmtYmdHM now,
   { db with reports := db.reports ++
       [⟨session_user_id, "complaint_feedback", description, "submitted", now⟩] })

/-! ## Concrete fixtures

A small store used by the witnesses and counterexamples: one registered
user, one scheme, one policy of status applied owned by that user. -/

/-- A registered user; the password hash is the digest `hash_password`
assigns to the password pw123 (`samplePasswordHash` checks it). -/
def sampleUser : User :=
  { id := 1
    digital_token := "ABCD1234"
    username := "alice"
    password_hash := "23d47445adfb8991789b459b6ba1b974d727d310aa9d80b7c2875b9430c0ba25"
    full_name := "Alice Smith"
    email := "alice@example.com"
    phone := "9876543210"
    date_of_birth := ⟨1990, 1, 1⟩
    age := 34
    gender := "female"
    address := "12 High Street"
    pan_number := "ABCDE1234F"
    face_data := some "verified"
    retina_data := some "verified"
    account_status := "active"
    last_login := none }

/-- The life-insurance scheme of the spec's concrete scenario. -/
def sampleScheme : Scheme :=
  { id := 1
    name := "Pure Life Term Insurance"
    category := "life"
    description := "term cover"
    premium_amount := 750
    coverage_amount := 10000000
    min_age := 18
    max_age := 65
    features := "[]"
    is_active := true }

/-- A policy of status applied owned by the sample user,
created at epoch second 1000000. -/
def appliedPolicy : Policy :=
  { id := 5
    policy_number := "POL202403150930AAAAAA"
    user_id := 1
    scheme_id := 1
    start_date := 19800
    end_date := 19800 + 3650
    premium_amount := 750
    coverage_amount := 10000000
    status := "applied"
    created_at := 1000000 }

/-- The store holding the fixtures above. -/
def sampleDB : DB :=
  { users := [sampleUser]
    schemes := [sampleScheme]
    policies := [appliedPolicy]
    nominees := []
    claims := []
    reports := [] }

/-- A fresh, fully valid registration form for a second user. -/
def regFormBob : RegForm :=
  { username := "bob"
    password := "s3cret"
    full_name := "Bob Jones"
    email := "bob@example.com"
    phone := "9123456780"
    date_of_birth := "1990-01-01"
    gender := "Male"
    address := "34 Low Street"
    pan_number := "FGHIJ5678K" }

/-! ## Shared lemmas -/

set_option maxRecDepth 100000 in
/-- The fixture digest is what `hash_password` assigns to pw123. -/
theorem samplePasswordHash : sampleUser.password_hash = hash_password "pw123" := by
  decide

/-- Primary-key lookup after the status update of `withdraw_policy`: setting
the status of the policies whose id is `pid` maps through `find?`. -/
theorem find?_status_update (l : List Policy) (pid : Nat) (s : String) :
    (l.map fun q => if q.id == pid then { q with status := s } else q).find?
        (fun q => q.id == pid)
      = (l.find? fun q => q.id == pid).map fun q => { q with status := s } := by
  rw [List.find?_map]
  have hpf : ((fun q : Policy => q.id == pid)
        ∘ fun q => if q.id == pid then { q with status := s } else q)
      = fun q : Policy => q.id == pid := by
    funext q
    by_cases hq : q.id = pid <;> simp [hq]
  rw [hpf]
  cases hfind : l.find? fun q => q.id == pid with
  | none => rfl
  | some q =>
      have hq0 := List.find?_some hfind
      have hq : (q.id == pid) = true := hq0
      simp only [Option.map_some', if_pos hq]

/-- Evaluation of `withdraw_policy` when the lookup succeeds and the
ownership-and-withdrawability guard holds. -/
theorem withdraw_policy_found_true {db : DB} {uid pid : Nat} {now : Int}
    {p : Policy} (hfind : getPolicy db pid = some p)
    (hg : (p.user_id == uid && is_withdrawable now p) = true) :
    withdraw_policy db uid pid now
      = (WithdrawResult.redirect,
         { db with policies := db.policies.map fun q =>
             if q.id == pid then { q with status := "withdrawn" } else q }) := by
  unfold withdraw_policy
  rw [hfind]
  simp [hg]

/-- Evaluation of `withdraw_policy` when the lookup succeeds and the
ownership-and-withdrawability guard fails. -/
theorem withdraw_policy_found_false {db : DB} {uid pid : Nat} {now : Int}
    {p : Policy} (hfind : getPolicy db pid = some p)
    (hg : (p.user_id == uid && is_withdrawable now p) = false) :
    withdraw_policy db uid pid now = (WithdrawResult.redirect, db) := by
  unfold withdraw_policy
  rw [hfind]
  simp [hg]

/-! ## The claims -/

/-- C1: `is_withdrawable` holds exactly when the policy's status is applied
and strictly fewer than 86400 seconds separate its creation timestamp from
the wall clock at the query; once 86400 seconds or more have elapsed it is
false regardless of status. -/
theorem is_withdrawable_iff (now : Int) (p : Policy) :
    (is_withdrawable now p = true
      ↔ p.status = "applied" ∧ now - p.created_at < 86400)
    ∧ (86400 ≤ now - p.created_at → is_withdrawable now p = false) := by
  constructor
  · simp [is_withdrawable]
  · intro h
    have hn : ¬(now - p.created_at < 86400) := by omega
    simp [is_withdrawable, hn]

/-- C1 witness: the sample policy (status applied, created at second
1000000) is withdrawable 50000 seconds later and not withdrawable 86400
seconds later. -/
theorem is_withdrawable_iff_witness :
    is_withdrawable 1050000 appliedPolicy = true
    ∧ is_withdrawable 1086400 appliedPolicy = false :=
  ⟨(is_withdrawable_iff 1050000 appliedPolicy).1.mpr (by constructor <;> decide),
   (is_withdrawable_iff 1086400 appliedPolicy).2 (by decide)⟩

/-- C9: password verification is the deterministic round trip of the
unsalted SHA-256 hex digest — the registered password verifies against its
own hash, and a stored hash verifies exactly when it equals `hash_password`
of the submitted password. -/
theorem verify_password_roundtrip (p h : String) :
    verify_password p (hash_password p) = true
    ∧ (verify_password p h = true ↔ h = hash_password p) := by
  refine ⟨?_, ?_⟩
  · simp [verify_password, hash_password]
  · unfold verify_password hash_password
    rw [beq_iff_eq]
    exact eq_comm

/-- C8: a submitted report answers with the type prefix (REP for
unauthorized_transaction, FB for complaint_feedback) followed by the
submission time formatted YYYYMMDDHHMM, and appends exactly that report; an
unauthorized-transaction report at 2024-03-15T10:30 yields REP202403151030. -/
theorem report_reference_id_format (db : DB) (uid : Nat) (desc : String)
    (now : Dt) :
    (report_transaction db uid desc now).1 = "REP" ++ fmtYmdHM now
    ∧ (complaints_feedback db uid desc now).1 = "FB" ++ fmtYmdHM now
    ∧ (report_transaction db uid desc now).2.reports
        = db.reports ++ [⟨uid, "unauthorized_transaction", desc, "submitted", now⟩]
    ∧ (complaints_feedback db uid desc now).2.reports
        = db.reports ++ [⟨uid, "complaint_feedback", desc, "submitted", now⟩]
    ∧ (report_transaction db uid desc ⟨2024, 3, 15, 10, 30⟩).1 = "REP202403151030" := by
  refine ⟨rfl, rfl, rfl, rfl, ?_⟩
  show ("REP" ++ fmtYmdHM ⟨2024, 3, 15, 10, 30⟩ : String) = "REP202403151030"
  decide

/-- C3: a policy application whose submitted token, upper-cased, differs
from the user's stored digital token fails with the token-mismatch page and
leaves the Policy and Nominee tables untouched — both row counts are
unchanged. -/
theorem apply_policy_wrong_token_creates_nothing (db : DB) (user : User)
    (scheme : Scheme) (tok nname nrel : String) (today now : Int)
    (pnum : String) (pid : Nat)
    (h : user.digital_token ≠ pyUpper tok) :
    apply_policy db user scheme tok nname nrel today now pnum pid
      = (ApplyResult.tokenMismatch, db)
    ∧ (apply_policy db user scheme tok nname nrel today now pnum pid).2.policies.length
        = db.policies.length
    ∧ (apply_policy db user scheme tok nname nrel today now pnum pid).2.nominees.length
        = db.nominees.length := by
  have hcond : (user.digital_token != pyUpper tok) = true := by
    simp [bne_iff_ne, h]
  refine ⟨?_, ?_, ?_⟩ <;> simp [apply_policy, hcond]

/-- C3 witness: submitting the wrong token WRONG123 for the sample user
leaves the sample store's policy and nominee counts unchanged. -/
theorem apply_policy_wrong_token_creates_nothing_witness :
    apply_policy sampleDB sampleUser sampleScheme "WRONG123" "Jane Doe" "spouse"
        19800 1000000 "POLX" 9 = (ApplyResult.tokenMismatch, sampleDB)
    ∧ (apply_policy sampleDB sampleUser sampleScheme "WRONG123" "Jane Doe" "spouse"
        19800 1000000 "POLX" 9).2.policies.length = sampleDB.policies.length
    ∧ (apply_policy sampleDB sampleUser sampleScheme "WRONG123" "Jane Doe" "spouse"
        19800 1000000 "POLX" 9).2.nominees.length = sampleDB.nominees.length :=
  apply_policy_wrong_token_creates_nothing sampleDB sampleUser sampleScheme
    "WRONG123" "Jane Doe" "spouse" 19800 1000000 "POLX" 9 (by decide)

/-- C4: every policy application either fails the token check with the
store untouched, or appends exactly one Policy and exactly one Nominee in
the same commit — the policy with status applied, premium and coverage
copied from the scheme, end date 3650 days past the start date, and the
nominee attached to that policy. -/
theorem apply_policy_atomic_pair (db : DB) (user : User) (scheme : Scheme)
    (tok nname nrel : String) (today now : Int) (pnum : String) (pid : Nat) :
    apply_policy db user scheme tok nname nrel today now pnum pid
        = (ApplyResult.tokenMismatch, db)
    ∨ ∃ p n, apply_policy db user scheme tok nname nrel today now pnum pid
          = (ApplyResult.applied p n,
             { db with policies := db.policies ++ [p],
                       nominees := db.nominees ++ [n] })
        ∧ p.status = "applied"
        ∧ p.premium_amount = scheme.premium_amount
        ∧ p.coverage_amount = scheme.coverage_amount
        ∧ p.start_date = today
        ∧ p.end_date = p.start_date + 3650
        ∧ n.policy_id = p.id
        ∧ n.user_id = user.id := by
  by_cases h : user.digital_token = pyUpper tok
  · right
    have hcond : (user.digital_token != pyUpper tok) = false := by simp [h]
    have happ : apply_policy db user scheme tok nname nrel today now pnum pid
        = (ApplyResult.applied
            ⟨pid, pnum, user.id, scheme.id, today, today + 365 * 10,
             scheme.premium_amount, scheme.coverage_amount, "applied", now⟩
            ⟨user.id, pid, nname, nrel⟩,
           { db with
               policies :=
                 db.policies ++
                   [⟨pid, pnum, user.id, scheme.id, today, today + 365 * 10,
                     scheme.premium_amount, scheme.coverage_amount, "applied", now⟩],
               nominees := db.nominees ++ [⟨user.id, pid, nname, nrel⟩] }) := by
      simp [apply_policy, hcond]
    exact ⟨_, _, happ, rfl, rfl, rfl, rfl,
      by show today + 365 * 10 = today + 3650; omega, rfl, rfl⟩
  · left
    have hcond : (user.digital_token != pyUpper tok) = true := by
      simp [bne_iff_ne, h]
    simp [apply_policy, hcond]

/-- C2 counterexample: policy 5 of the sample store has status applied —
not active — and yet a claim filing against it with the matching token
abcd1234 succeeds and appends a Claim row; no eligibility error occurs. -/
theorem make_claim_ineligible_policy_still_creates :
    (getPolicy sampleDB 5).map Policy.status = some "applied"
    ∧ (make_claim sampleDB sampleUser "abcd1234" 5 100 [] 2000000 "CLM1").1
        = ClaimResult.submitted ⟨"CLM1", 1, 5, 100, [], "submitted", 2000000⟩
    ∧ (make_claim sampleDB sampleUser "abcd1234" 5 100 [] 2000000 "CLM1").2.claims.length
        = sampleDB.claims.length + 1 := by
  decide

/-- C2 amended: make_claim validates only the digital token.  Whenever the
submitted token upper-cases to the user's stored token it creates exactly
one Claim for the submitted policy id — whatever that policy's status or
owner — and no eligibility check or PolicyNotEligibleError exists in the
handler; non-active policies are only filtered out of the form's dropdown. -/
theorem make_claim_checks_only_token (db : DB) (user : User) (tok : String)
    (pid : Nat) (amount : Rat) (docs : List String) (now : Int) (num : String)
    (h : user.digital_token = pyUpper tok) :
    make_claim db user tok pid amount docs now num
      = (ClaimResult.submitted ⟨num, user.id, pid, amount, docs, "submitted", now⟩,
         { db with claims :=
             db.claims ++ [⟨num, user.id, pid, amount, docs, "submitted", now⟩] }) := by
  have hcond : (user.digital_token != pyUpper tok) = false := by simp [h]
  simp [make_claim, hcond]

/-- C2 witness: the amended claim evaluated on the sample store — the token
matches, policy 5 is merely applied, and the Claim row is appended. -/
theorem make_claim_checks_only_token_witness :
    make_claim sampleDB sampleUser "abcd1234" 5 100 [] 2000000 "CLM1"
      = (ClaimResult.submitted ⟨"CLM1", 1, 5, 100, [], "submitted", 2000000⟩,
         { sampleDB with claims :=
             sampleDB.claims ++ [⟨"CLM1", 1, 5, 100, [], "submitted", 2000000⟩] }) :=
  make_claim_checks_only_token sampleDB sampleUser "abcd1234" 5 100 [] 2000000
    "CLM1" (by decide)

/-- C5: on a policy owned by the caller, of status applied and younger than
86400 seconds, the first withdraw call answers the redirect and flips the
status to withdrawn; a second call at any later (or any) instant is a no-op
that answers the same redirect and changes nothing. -/
theorem withdraw_twice_idempotent (db : DB) (uid pid : Nat) (t1 t2 : Int)
    (p : Policy) (hfind : getPolicy db pid = some p) (hown : p.user_id = uid)
    (hstat : p.status = "applied") (hage : t1 - p.created_at < 86400) :
    (withdraw_policy db uid pid t1).1 = WithdrawResult.redirect
    ∧ getPolicy (withdraw_policy db uid pid t1).2 pid
        = some { p with status := "withdrawn" }
    ∧ withdraw_policy (withdraw_policy db uid pid t1).2 uid pid t2
        = (WithdrawResult.redirect, (withdraw_policy db uid pid t1).2) := by
  have hg1 : (p.user_id == uid && is_withdrawable t1 p) = true := by
    simp [hown, is_withdrawable, hstat, hage]
  have h1 := withdraw_policy_found_true hfind hg1
  have h2 : getPolicy (withdraw_policy db uid pid t1).2 pid
      = some { p with status := "withdrawn" } := by
    rw [h1]
    simp only [getPolicy] at hfind ⊢
    rw [find?_status_update, hfind, Option.map_some']
  have hg2 : (({ p with status := "withdrawn" } : Policy).user_id == uid
      && is_withdrawable t2 { p with status := "withdrawn" }) = false := by
    have hs : ((("withdrawn" : String)) == "applied") = false := by decide
    simp [is_withdrawable, hs]
  exact ⟨by rw [h1], h2, withdraw_policy_found_false h2 hg2⟩

/-- C5 witness: the sample applied policy, withdrawn by its owner 50000
seconds after creation, then withdrawn again 90000 seconds after creation. -/
theorem withdraw_twice_idempotent_witness :
    (withdraw_policy sampleDB 1 5 1050000).1 = WithdrawResult.redirect
    ∧ getPolicy (withdraw_policy sampleDB 1 5 1050000).2 5
        = some { appliedPolicy with status := "withdrawn" }
    ∧ withdraw_policy (withdraw_policy sampleDB 1 5 1050000).2 1 5 1090000
        = (WithdrawResult.redirect, (withdraw_policy sampleDB 1 5 1050000).2) :=
  withdraw_twice_idempotent sampleDB 1 5 1050000 1090000 appliedPolicy
    (by decide) (by decide) (by decide) (by decide)

/-- C10: a withdraw call on an existing policy that is not owned by the
session user, or not withdrawable at the instant of the call, answers the
redirect — no authorization error is surfaced — and leaves the whole store,
hence every field of that policy, unchanged. -/
theorem withdraw_unauthorized_or_ineligible_noop (db : DB) (uid pid : Nat)
    (now : Int) (p : Policy) (hfind : getPolicy db pid = some p)
    (h : ¬(p.user_id = uid ∧ is_withdrawable now p = true)) :
    withdraw_policy db uid pid now = (WithdrawResult.redirect, db) := by
  have hg : (p.user_id == uid && is_withdrawable now p) = false := by
    by_cases h1 : p.user_id = uid
    · have h2 : is_withdrawable now p = false := by
        cases hw : is_withdrawable now p
        · rfl
        · exact absurd ⟨h1, hw⟩ h
      simp [h2]
    · have hb : (p.user_id == uid) = false := beq_eq_false_iff_ne.mpr h1
      simp [hb]
  exact withdraw_policy_found_false hfind hg

/-- C10 witness: user 2 does not own policy 5; their withdraw call inside
the withdrawal window redirects and leaves the sample store unchanged. -/
theorem withdraw_unauthorized_or_ineligible_noop_witness :
    withdraw_policy sampleDB 2 5 1050000 = (WithdrawResult.redirect, sampleDB) :=
  withdraw_unauthorized_or_ineligible_noop sampleDB 2 5 1050000 appliedPolicy
    (by decide) (by decide)

/-- C6 counterexample: the token generator is not collision-checked — it
derives the token from the uuid string alone.  A user with token ABCD1234
exists in the sample store, and fed the uuid string abcd1234-0000-0000 the
generator returns that very token; the registration then fails at commit
(unique column constraint) instead of the generator avoiding the collision. -/
theorem generate_token_not_collision_checked :
    generate_token "abcd1234-0000-0000" = "ABCD1234"
    ∧ (∃ u ∈ sampleDB.users, u.digital_token = "ABCD1234")
    ∧ (register sampleDB regFormBob (some ⟨1990, 1, 1⟩) ⟨2024, 6, 1⟩
          "abcd1234-0000-0000").1
        = RegResult.failure "Registration failed: UNIQUE constraint failed" 500 := by
  decide

/-- C6 amended: every registration that succeeds returns a digital token
that is unique across all existing users at that moment, and that token is
`generate_token` of the uuid string; the uniqueness is enforced by the
unique column constraint aborting the commit on a duplicate, not by any
collision check inside the generator. -/
theorem register_success_token_unique (db : DB) (form : RegForm)
    (dob : Option Date) (today : Date) (uuidStr tok : String) (db2 : DB)
    (h : register db form dob today uuidStr = (RegResult.success tok, db2)) :
    tok = generate_token uuidStr ∧ ∀ u ∈ db.users, u.digital_token ≠ tok := by
  revert h
  unfold register
  intro h
  by_cases c1 : (form.username == "") = true
  · rw [if_pos c1] at h; exact absurd (congrArg Prod.fst h) (by simp)
  rw [if_neg c1] at h
  by_cases c2 : (form.password == "") = true
  · rw [if_pos c2] at h; exact absurd (congrArg Prod.fst h) (by simp)
  rw [if_neg c2] at h
  by_cases c3 : (form.full_name == "") = true
  · rw [if_pos c3] at h; exact absurd (congrArg Prod.fst h) (by simp)
  rw [if_neg c3] at h
  by_cases c4 : (form.email == "") = true
  · rw [if_pos c4] at h; exact absurd (congrArg Prod.fst h) (by simp)
  rw [if_neg c4] at h
  by_cases c5 : (form.phone == "") = true
  · rw [if_pos c5] at h; exact absurd (congrArg Prod.fst h) (by simp)
  rw [if_neg c5] at h
  by_cases c6 : (form.date_of_birth == "") = true
  · rw [if_pos c6] at h; exact absurd (congrArg Prod.fst h) (by simp)
  rw [if_neg c6] at h
  by_cases c7 : (form.gender == "") = true
  · rw [if_pos c7] at h; exact absurd (congrArg Prod.fst h) (by simp)
  rw [if_neg c7] at h
  by_cases c8 : (form.address == "") = true
  · rw [if_pos c8] at h; exact absurd (congrArg Prod.fst h) (by simp)
  rw [if_neg c8] at h
  by_cases c9 : (form.pan_number == "") = true
  · rw [if_pos c9] at h; exact absurd (congrArg Prod.fst h) (by simp)
  rw [if_neg c9] at h
  by_cases c10 : (db.users.any fun u => u.username == form.username) = true
  · rw [if_pos c10] at h; exact absurd (congrArg Prod.fst h) (by simp)
  rw [if_neg c10] at h
  by_cases c11 : (db.users.any fun u => u.email == form.email) = true
  · rw [if_pos c11] at h; exact absurd (congrArg Prod.fst h) (by simp)
  rw [if_neg c11] at h
  by_cases c12 : (db.users.any fun u => u.pan_number == pyUpper form.pan_number) = true
  · rw [if_pos c12] at h; exact absurd (congrArg Prod.fst h) (by simp)
  rw [if_neg c12] at h
  by_cases c13 : (!validate_pan form.pan_number) = true
  · rw [if_pos c13] at h; exact absurd (congrArg Prod.fst h) (by simp)
  rw [if_neg c13] at h
  rcases dob with _ | bd
  · try dsimp only [] at h
    exact absurd (congrArg Prod.fst h) (by simp)
  try dsimp only [] at h
  by_cases c14 : calculate_age today bd < 18
  · rw [if_pos c14] at h; exact absurd (congrArg Prod.fst h) (by simp)
  rw [if_neg c14] at h
  by_cases c15 : calculate_age today bd > 100
  · rw [if_pos c15] at h; exact absurd (congrArg Prod.fst h) (by simp)
  rw [if_neg c15] at h
  try dsimp only [] at h
  by_cases c16 : (db.users.any fun u =>
      u.digital_token == generate_token uuidStr
        || u.username == pyStrip form.username
        || u.email == pyLower (pyStrip form.email)
        || u.pan_number == pyStrip (pyUpper form.pan_number)) = true
  · rw [if_pos c16] at h; exact absurd (congrArg Prod.fst h) (by simp)
  rw [if_neg c16] at h
  have h1 := congrArg Prod.fst h
  simp only [RegResult.success.injEq] at h1
  refine ⟨h1.symm, ?_⟩
  intro u hu heq
  apply c16
  rw [List.any_eq_true]
  refine ⟨u, hu, ?_⟩
  simp [heq, h1]

/-- C6 witness: registering bob against the sample store with the uuid
string 12ab34cd-0000-0000 succeeds, and the returned token 12AB34CD is
unique across the existing users. -/
theorem register_success_token_unique_witness :
    "12AB34CD" = generate_token "12ab34cd-0000-0000"
    ∧ ∀ u ∈ sampleDB.users, u.digital_token ≠ "12AB34CD" :=
  register_success_token_unique sampleDB regFormBob (some ⟨1990, 1, 1⟩)
    ⟨2024, 6, 1⟩ "12ab34cd-0000-0000" "12AB34CD"
    (register sampleDB regFormBob (some ⟨1990, 1, 1⟩) ⟨2024, 6, 1⟩
      "12ab34cd-0000-0000").2 (by rfl)

/-- C7: a login attempt with an unknown username and one with a known
username but wrong password produce the identical failure response —
message Invalid username or password, HTTP status 401 — and leave the user
table unchanged, so the response does not reveal whether the username
exists. -/
theorem login_failure_uniform_response (users : List User)
    (u1 p1 u2 p2 : String) (now1 now2 : Int) (usr : User)
    (h1u : pyStrip u1 ≠ "") (h1p : p1 ≠ "")
    (h1 : users.find? (fun u => u.username == pyStrip u1) = none)
    (h2u : pyStrip u2 ≠ "") (h2p : p2 ≠ "")
    (h2 : users.find? (fun u => u.username == pyStrip u2) = some usr)
    (h2w : verify_password p2 usr.password_hash = false) :
    login users u1 p1 now1 = (⟨false, "Invalid username or password", 401⟩, users)
    ∧ login users u2 p2 now2 = (⟨false, "Invalid username or password", 401⟩, users) := by
  constructor
  · have hc : (pyStrip u1 == "" || p1 == "") = false := by
      simp [h1u, h1p]
    simp [login, hc, h1]
  · have hc : (pyStrip u2 == "" || p2 == "") = false := by
      simp [h2u, h2p]
    simp [login, hc, h2, h2w]

set_option maxRecDepth 400000 in
/-- C7 witness: against the sample store, the unknown username nobody and
the known username alice with a wrong password draw the same 401 response. -/
theorem login_failure_uniform_response_witness :
    login [sampleUser] "nobody" "pw123" 111
        = (⟨false, "Invalid username or password", 401⟩, [sampleUser])
    ∧ login [sampleUser] "alice" "wrong" 222
        = (⟨false, "Invalid username or password", 401⟩, [sampleUser]) :=
  login_failure_uniform_response [sampleUser] "nobody" "pw123" "alice" "wrong"
    111 222 sampleUser (by decide) (by decide) (by decide) (by decide)
    (by decide) (by decide) (by decide)

end Insurance
